import Mathlib

set_option autoImplicit false

/-!
Verification of the workflow orchestration core of the whale-scale
repository.  The embedded code comes from app/workflows.py and
app/activities.py.  Two signal handlers of Text2ImageWorkflow
(update_progress and cancel_generation) are exercised by
app/tests/test_workflow.py and described by the specification but are
absent from app/workflows.py; they are modelled from the spec and
marked as such in their doc comments.  Python dictionaries are embedded
as insertion-ordered association lists, Python exceptions as explicit
outcome constructors, and awaited activities as explicit oracle
arguments.
-/

/-- JSON-style scalar values: enough for the dictionaries the embedded
functions build and inspect (string, bool, integer, null). -/
inductive JVal where
  | s (v : String)
  | b (v : Bool)
  | i (v : Int)
  | null
  deriving DecidableEq, Repr

/-- Python dict with string keys, embedded as an insertion-ordered
association list.  Keys are unique in any dict built by dictInsert. -/
abbrev Obj := List (String × JVal)

/-- Python dict.get(k): the value at the first matching key, none when the
key is absent. -/
def Obj.get : Obj → String → Option JVal
  | [], _ => none
  | (k2, v) :: rest, k => if k2 = k then some v else Obj.get rest k

/-- Python dict assignment d[k] = v: updates the value in place when the
key is present (CPython keeps the insertion position), appends otherwise. -/
def dictInsert {V : Type} (k : String) (v : V) :
    List (String × V) → List (String × V)
  | [] => [(k, v)]
  | (k2, v2) :: rest =>
      if k2 = k then (k, v) :: rest else (k2, v2) :: dictInsert k v rest

/-- Outcome of one awaited task in asyncio.gather(tasks,
return_exceptions=True) inside HealthCheckWorkflow.run: either the
activity return value or the raised exception, carried as its message
(str(e) in the source). -/
inductive GatherItem where
  | ok (v : Obj)
  | exn (msg : String)
  deriving DecidableEq, Repr

/-- Body of the result-collection loop of HealthCheckWorkflow.run: an
exception becomes a status=error dict holding str(e); a normal result is
stored verbatim. -/
def interpItem : GatherItem → Obj
  | .ok v => v
  | .exn m => [("status", JVal.s "error"), ("error", JVal.s m)]

/-- The for-loop of HealthCheckWorkflow.run that fills health_results:
iterates containers in input order, writing each interpreted outcome
under its container key. -/
def healthFold : List (String × GatherItem) → List (String × Obj) →
    List (String × Obj)
  | [], acc => acc
  | (c, r) :: rest, acc => healthFold rest (dictInsert c (interpItem r) acc)

/-- HealthCheckWorkflow.run from app/workflows.py.  One activity is
started per container; asyncio.gather with return_exceptions=True yields
the outcomes in input order (results here), never raising; the loop then
builds health_results keyed by container in input iteration order.  The
dict is stored in the instance state and returned; this embedding
returns it. -/
def HealthCheckWorkflow.run (containers : List String)
    (results : List GatherItem) : List (String × Obj) :=
  healthFold (containers.zip results) []

/-- HealthCheckWorkflow.add_container signal from app/workflows.py:
appends the container only when it is not already present. -/
def add_container (containers : List String) (container : String) :
    List String :=
  if container ∈ containers then containers else containers ++ [container]

/-- Return shape of HealthCheckWorkflow._get_health_summary (a dict with
four fixed integer keys in the source). -/
structure HealthSummary where
  total : Nat
  healthy : Nat
  unhealthy : Nat
  errors : Nat
  deriving DecidableEq, Repr

/-- Predicate used by the summary generators in the source:
result.get("status") == v for an entry of health_results. -/
def statusIs (v : String) (p : String × Obj) : Bool :=
  decide (Obj.get p.2 "status" = some (JVal.s v))

/-- HealthCheckWorkflow._get_health_summary from app/workflows.py (the
leading underscore of the source name is dropped): empty results give
the all-zero summary; otherwise total is the number of entries and each
bucket counts entries whose status value equals the bucket name
exactly. -/
def get_health_summary (hr : List (String × Obj)) : HealthSummary :=
  if hr = [] then ⟨0, 0, 0, 0⟩
  else
    ⟨hr.length,
     hr.countP (statusIs "healthy"),
     hr.countP (statusIs "unhealthy"),
     hr.countP (statusIs "error")⟩

/-- Return shape of the HealthCheckWorkflow.get_health_status query (a
dict with three fixed keys in the source). -/
structure HealthStatus where
  containers : List String
  health_results : List (String × Obj)
  summary : HealthSummary
  deriving Repr

/-- HealthCheckWorkflow.get_health_status query from app/workflows.py,
reading the instance state (passed here explicitly). -/
def get_health_status (containers : List String)
    (hr : List (String × Obj)) : HealthStatus :=
  ⟨containers, hr, get_health_summary hr⟩

/-- Queryable state of Text2ImageWorkflow (fields _prompt, _image_url,
_status, _progress of the source class, underscores dropped). -/
structure T2IState where
  prompt : String
  image_url : Option String
  status : String
  progress : Int
  deriving DecidableEq, Repr

/-- Text2ImageWorkflow.__init__ from app/workflows.py. -/
def Text2ImageWorkflow.init : T2IState :=
  { prompt := "", image_url := none, status := "pending", progress := 0 }

/-- temporalio RetryPolicy as configured by the source: intervals carried
in whole seconds. -/
structure RetryPolicy where
  initial_interval : Nat
  maximum_interval : Nat
  maximum_attempts : Nat
  non_retryable_error_types : List String
  deriving DecidableEq, Repr

/-- The positional argument tuple (prompt, model, negative_prompt, width,
height, steps, cfg_scale, seed) passed to Text2ImageWorkflow.run and
forwarded to generate_image_from_text.  Optional slots carry None as
none. -/
structure GenArgs where
  prompt : String
  model : Option String
  negative_prompt : Option String
  width : Option Nat
  height : Option Nat
  steps : Option Nat
  cfg_scale : Option Nat
  seed : Option Int
  deriving Repr

/-- The retry policy literal built inside Text2ImageWorkflow.run:
initial_interval=1s, maximum_interval=10s, maximum_attempts=3,
non_retryable_error_types=["ValueError", "KeyError"]. -/
def text2image_retry_policy : RetryPolicy :=
  { initial_interval := 1
    maximum_interval := 10
    maximum_attempts := 3
    non_retryable_error_types := ["ValueError", "KeyError"] }

/-- Python or-with-default on an optional string: None and the empty
string are falsy and give the default. -/
def pyOrStr (v : Option String) (d : String) : String :=
  match v with
  | none => d
  | some s => if s = "" then d else s

/-- Python or-with-default on an optional number: None and 0 are falsy
and give the default. -/
def pyOrNat (v : Option Nat) (d : Nat) : Nat :=
  match v with
  | none => d
  | some n => if n = 0 then d else n

/-- Arguments of generate_image_from_text after its default-filling
section. -/
structure ResolvedArgs where
  prompt : String
  model : String
  negative_prompt : String
  width : Nat
  height : Nat
  steps : Nat
  cfg_scale : Nat
  seed : Int
  deriving DecidableEq, Repr

/-- Default-filling section at the top of generate_image_from_text: model
defaults to the stable-diffusion checkpoint name, width and height to
512, steps to 30, cfg_scale to 5; seed becomes -1 when None (from the
generation_request literal). -/
def resolveArgs (a : GenArgs) : ResolvedArgs :=
  { prompt := a.prompt
    model := pyOrStr a.model "runwayml/stable-diffusion-v1-5"
    negative_prompt := pyOrStr a.negative_prompt ""
    width := pyOrNat a.width 512
    height := pyOrNat a.height 512
    steps := pyOrNat a.steps 30
    cfg_scale := pyOrNat a.cfg_scale 5
    seed := a.seed.getD (-1) }

/-- The metadata sub-dict of the result built on the completed branch of
generate_image_from_text (fixed keys in the source). -/
structure GenMetadata where
  generation_time : Option JVal
  model_version : Option JVal
  resolution : String
  steps : Nat
  cfg_scale : Nat
  seed : Option JVal
  sampler : String
  scheduler : String
  deriving DecidableEq, Repr

/-- The result dict returned by generate_image_from_text on the completed
branch (fixed keys in the source). -/
structure GenResult where
  image_url : Option JVal
  image_data : Option JVal
  prompt : String
  model : String
  metadata : GenMetadata
  deriving DecidableEq, Repr

/-- Construction of the return dict on the completed branch of
generate_image_from_text from the fetched final_result JSON and the
resolved request arguments. -/
def buildResult (r : ResolvedArgs) (final_result : Obj) : GenResult :=
  { image_url := Obj.get final_result "image_url"
    image_data := Obj.get final_result "image_data"
    prompt := r.prompt
    model := r.model
    metadata :=
      { generation_time := Obj.get final_result "generation_time"
        model_version := Obj.get final_result "model_version"
        resolution := toString r.width ++ "x" ++ toString r.height
        steps := r.steps
        cfg_scale := r.cfg_scale
        seed := Obj.get final_result "seed"
        sampler := "euler"
        scheduler := "normal" } }

/-- Body of one status-endpoint JSON answer as read by the poll loop:
status_data.get("status") and status_data.get("error", default). -/
structure StatusData where
  status : Option String
  error : Option String
  deriving DecidableEq, Repr

/-- One iteration of the poll loop observes either a non-200 answer from
the status endpoint (which raises in the source) or a parsed JSON
body. -/
inductive PollResponse where
  | httpError
  | ok (d : StatusData)
  deriving DecidableEq, Repr

/-- Behaviour of the single result-endpoint call made on the completed
branch: non-200 raises in the source, otherwise a JSON body is
returned. -/
inductive FetchResponse where
  | httpError
  | ok (final_result : Obj)
  deriving DecidableEq, Repr

/-- Outcome of the polling section of generate_image_from_text: the
returned result dict, one of the raise sites, or the cut of the
unbounded loop when the finite response trace ends while still
polling. -/
inductive PollOutcome where
  | ok (r : GenResult)
  | statusRequestFailed
  | resultRequestFailed
  | generationFailed (msg : String)
  | unknownStatus (status : Option String)
  | pollsExhausted
  deriving DecidableEq, Repr

/-- The while-True polling section of generate_image_from_text from
app/activities.py, runs over a finite trace of status-endpoint
responses; also counts the calls made to the result endpoint.  Branch
order follows the source: status completed fetches the result once and
returns the built dict (raising when the fetch answers non-200); failed
raises with the reported error message (default: Unknown error);
processing and running continue the loop; every other status value
raises the unknown-status error.  The enclosing except blocks of the
source, which rewrap raised messages, lie outside the polling section
and are not modelled. -/
def pollLoop (r : ResolvedArgs) (fetch : FetchResponse) :
    List PollResponse → PollOutcome × Nat
  | [] => (PollOutcome.pollsExhausted, 0)
  | PollResponse.httpError :: _ => (PollOutcome.statusRequestFailed, 0)
  | PollResponse.ok d :: rest =>
      if d.status = some "completed" then
        match fetch with
        | FetchResponse.ok final_result =>
            (PollOutcome.ok (buildResult r final_result), 1)
        | FetchResponse.httpError => (PollOutcome.resultRequestFailed, 1)
      else if d.status = some "failed" then
        (PollOutcome.generationFailed
          ("Generation failed: " ++ (d.error.getD "Unknown error")), 0)
      else if d.status = some "processing" ∨ d.status = some "running" then
        pollLoop r fetch rest
      else
        (PollOutcome.unknownStatus d.status, 0)

/-- Text2ImageWorkflow.run from app/workflows.py.  The awaited activity
is abstracted as an oracle from the forwarded args tuple to its result.
The run builds the retry policy literal, executes the activity under it,
and returns the activity result as the workflow result; it assigns none
of the queryable state fields, which this embedding makes explicit by
threading the state through unchanged.  Returns (state after run, retry
policy used for the invocation, workflow result). -/
def Text2ImageWorkflow.run (st : T2IState) (args : GenArgs)
    (activityResult : GenArgs → GenResult) :
    T2IState × RetryPolicy × GenResult :=
  (st, text2image_retry_policy, activityResult args)

/-- Modelled from the spec: the update_progress signal of
Text2ImageWorkflow, which app/workflows.py does not define (only
app/tests/test_workflow.py calls it and the spec describes it).  Spec:
Signal updateProgress(p) clamps p into [0,100]; updateProgress(p) always
yields stored progress = max(0, min(100, p)). -/
def update_progress (st : T2IState) (p : Int) : T2IState :=
  { st with progress := max 0 (min 100 p) }

/-- Modelled from the spec: the cancel_generation signal of
Text2ImageWorkflow, which app/workflows.py does not define (only
app/tests/test_workflow.py calls it and the spec describes it).  Spec:
Signal cancelGeneration sets status to cancelled; advisory only, it just
flips the status flag and touches nothing else. -/
def cancel_generation (st : T2IState) : T2IState :=
  { st with status := "cancelled" }

/-- One failed activity attempt as seen by the retry machinery: the error
kind (the Python exception type name matched against
non_retryable_error_types) and its message. -/
structure AttemptFailure where
  kind : String
  message : String
  deriving DecidableEq, Repr

/-- Modelled from the spec: the backoff delay (in seconds) before attempt
n, for n at least 2, under a retry policy.  Spec: attempt n (n at least
2) is scheduled no earlier than min(initialInterval x 2^(n-2),
maximumInterval) after the previous failure; the retry loop itself lives
in the temporalio library, configured but not defined under src/. -/
def backoffDelay (p : RetryPolicy) (n : Nat) : Nat :=
  min (p.initial_interval * 2 ^ (n - 2)) p.maximum_interval

/-- Modelled from the spec: the retry loop of the Activity Invoker
(implemented by the temporalio library, configured but not defined under
src/).  Attempt i fails with the corresponding entry of the failure list
while entries remain and succeeds once they are exhausted; n is the
number of the current attempt.  Retrying stops when the attempt count
reaches maximum_attempts or the failure kind is non-retryable; returned
is the number of the final attempt performed. -/
def retryRun (p : RetryPolicy) : Nat → List AttemptFailure → Nat
  | n, [] => n
  | n, f :: rest =>
      if p.maximum_attempts ≤ n ∨ f.kind ∈ p.non_retryable_error_types then n
      else retryRun p (n + 1) rest

/-- Number of attempts performed by the retry loop on a given failure
sequence, starting from attempt 1. -/
def attemptsUsed (p : RetryPolicy) (failures : List AttemptFailure) : Nat :=
  retryRun p 1 failures

/-- The State sub-dict of one docker-inspect JSON record as read by
check_container_health: each field is None when the key is absent;
health is the nested Health.Status lookup (outer option: is the Health
key present; inner: is Status present under it). -/
structure ContainerState where
  running : Option Bool
  exit_code : Option Int
  health : Option (Option String)
  started_at : Option String
  finished_at : Option String
  deriving Repr

/-- Environment behaviour observed by one check_container_health call:
the docker inspect subprocess completes with a return code and (when
inspected further) a parse of its stdout, or it times out
(subprocess.TimeoutExpired), or some other exception is raised (carried
as str(e)); a parse failure on completed output is also an exception
carried as its message. -/
inductive InspectOutcome where
  | completed (returncode : Int) (parsed : Except String ContainerState)
  | timedOut
  | raised (msg : String)
  deriving Repr

/-- Python None-or-string as a JSON value. -/
def optStr : Option String → JVal
  | none => JVal.null
  | some v => JVal.s v

/-- The error-shaped dict returned on every failure path of
check_container_health. -/
def errorResult (msg : String) (container : String) : Obj :=
  [("status", JVal.s "error"), ("error", JVal.s msg),
   ("container", JVal.s container)]

/-- check_container_health from app/activities.py.  The heartbeat call is
effect-free for the returned value and is not modelled.  A nonzero
docker-inspect return code, a subprocess timeout, and any raised
exception (including a stdout parse failure) all return the error-shaped
dict; on success the status classification and the seven-key result dict
follow the source: running with health healthy-or-unknown is healthy,
running with health unhealthy is unhealthy, not running with exit code 0
is stopped, anything else is unhealthy. -/
def check_container_health (container_name : String)
    (outcome : InspectOutcome) : Obj :=
  match outcome with
  | .timedOut =>
      errorResult ("Timeout checking container " ++ container_name)
        container_name
  | .raised m => errorResult m container_name
  | .completed rc parsed =>
      if rc ≠ 0 then
        errorResult ("Container " ++ container_name ++ " not found")
          container_name
      else
        match parsed with
        | .error m => errorResult m container_name
        | .ok state =>
            let is_running := state.running.getD false
            let exit_code := state.exit_code.getD 0
            let health_status :=
              match state.health with
              | none => "unknown"
              | some h => h.getD "unknown"
            let status :=
              if is_running ∧ (health_status = "healthy" ∨ health_status = "unknown")
              then "healthy"
              else if is_running ∧ health_status = "unhealthy" then "unhealthy"
              else if ¬is_running ∧ exit_code = 0 then "stopped"
              else "unhealthy"
            [("status", JVal.s status),
             ("container", JVal.s container_name),
             ("running", JVal.b is_running),
             ("exit_code", JVal.i exit_code),
             ("health_status", JVal.s health_status),
             ("started_at", optStr state.started_at),
             ("finished_at", optStr state.finished_at)]

/-- A concrete resolved-argument record used by concrete evaluations of
the poll loop. -/
def r0 : ResolvedArgs :=
  { prompt := "a whale", model := "runwayml/stable-diffusion-v1-5"
    negative_prompt := "", width := 512, height := 512, steps := 30
    cfg_scale := 5, seed := -1 }

theorem dictInsert_of_not_mem {V : Type} (k : String) (v : V)
    (l : List (String × V)) (h : k ∉ l.map Prod.fst) :
    dictInsert k v l = l ++ [(k, v)] := by
  induction l with
  | nil => rfl
  | cons p rest ih =>
    obtain ⟨k2, v2⟩ := p
    simp only [List.map_cons, List.mem_cons] at h
    push_neg at h
    simp [dictInsert, Ne.symm h.1, ih h.2]

theorem healthFold_eq_append (pairs : List (String × GatherItem)) :
    ∀ acc : List (String × Obj),
      (pairs.map Prod.fst).Nodup →
      (∀ k, k ∈ pairs.map Prod.fst → k ∉ acc.map Prod.fst) →
      healthFold pairs acc
        = acc ++ pairs.map (fun pr => (pr.1, interpItem pr.2)) := by
  induction pairs with
  | nil => intro acc _ _; simp [healthFold]
  | cons p rest ih =>
    intro acc hnd hdisj
    obtain ⟨c, r⟩ := p
    simp only [List.map_cons, List.nodup_cons] at hnd
    have hc : c ∉ acc.map Prod.fst := hdisj c (by simp)
    have hstep : healthFold ((c, r) :: rest) acc
        = healthFold rest (dictInsert c (interpItem r) acc) := rfl
    rw [hstep, dictInsert_of_not_mem c (interpItem r) acc hc,
      ih (acc ++ [(c, interpItem r)]) hnd.2 ?_]
    · simp
    · intro k hk
      have h1 : k ∉ acc.map Prod.fst := hdisj k (by simp [hk])
      have h2 : k ≠ c := fun he => hnd.1 (he ▸ hk)
      simp [List.map_append, h1, h2]

theorem add_container_nodup (l : List String) (c : String) (h : l.Nodup) :
    (add_container l c).Nodup := by
  by_cases hc : c ∈ l
  · simpa [add_container, hc] using h
  · have happ : (l ++ [c]).Nodup := by
      simp [List.nodup_append, h, hc]
    simpa [add_container, hc] using happ

theorem foldl_add_container_nodup (cs : List String) :
    ∀ start : List String, start.Nodup →
      (cs.foldl add_container start).Nodup := by
  induction cs with
  | nil => intro s h; simpa using h
  | cons c rest ih =>
    intro s h
    simpa [List.foldl_cons] using ih (add_container s c) (add_container_nodup s c h)

/-- C7: the addContainer signal appends its argument only when absent, so
a containers list built by addContainer applications from the empty
initial list never holds duplicates, and applying the signal twice in a
row yields the same list as applying it once. -/
theorem add_container_set_semantics (cs : List String) (c : String) :
    (c ∈ cs → add_container cs c = cs)
  ∧ (c ∉ cs → add_container cs c = cs ++ [c])
  ∧ add_container (add_container cs c) c = add_container cs c
  ∧ (cs.foldl add_container []).Nodup := by
  refine ⟨fun h => by simp [add_container, h],
          fun h => by simp [add_container, h], ?_, ?_⟩
  · by_cases h : c ∈ cs
    · simp [add_container, h]
    · have h1 : add_container cs c = cs ++ [c] := by simp [add_container, h]
      rw [h1]
      simp [add_container]
  · exact foldl_add_container_nodup cs [] (by simp)

/-- Witness for C7 at concrete inputs. -/
theorem add_container_set_semantics_witness :
    add_container ["a"] "a" = ["a"]
  ∧ add_container ["a"] "b" = ["a"] ++ ["b"] :=
  ⟨(add_container_set_semantics ["a"] "a").1 (by decide),
   (add_container_set_semantics ["a"] "b").2.1 (by decide)⟩

/-- C4: the updateProgress(p) signal (modelled from the spec) stores
exactly max(0, min(100, p)): values above 100 clamp to 100, values below
0 clamp to 0, and values inside [0,100] are stored unchanged. -/
theorem update_progress_clamp (st : T2IState) (p : Int) :
    (update_progress st p).progress = max 0 (min 100 p)
  ∧ (100 < p → (update_progress st p).progress = 100)
  ∧ (p < 0 → (update_progress st p).progress = 0)
  ∧ (0 ≤ p → p ≤ 100 → (update_progress st p).progress = p) := by
  refine ⟨rfl, fun h => ?_, fun h => ?_, fun h1 h2 => ?_⟩ <;>
    simp only [update_progress] <;> omega

/-- Witness for C4 at inputs 150, -10 and 50. -/
theorem update_progress_clamp_witness :
    (update_progress Text2ImageWorkflow.init 150).progress = 100
  ∧ (update_progress Text2ImageWorkflow.init (-10)).progress = 0
  ∧ (update_progress Text2ImageWorkflow.init 50).progress = 50 :=
  ⟨(update_progress_clamp Text2ImageWorkflow.init 150).2.1 (by decide),
   (update_progress_clamp Text2ImageWorkflow.init (-10)).2.2.1 (by decide),
   (update_progress_clamp Text2ImageWorkflow.init 50).2.2.2 (by decide) (by decide)⟩

/-- C6: every execution of Text2ImageWorkflow.run invokes the
image-generation activity under the retry policy with initial interval 1
second, maximum interval 10 seconds, maximum attempts 3, and
non-retryable kinds exactly ValueError (the invalid-argument kind) and
KeyError (the not-found kind), and returns the activity result verbatim
as the workflow result. -/
theorem text2image_run_policy_and_result (st : T2IState) (args : GenArgs)
    (act : GenArgs → GenResult) :
    (Text2ImageWorkflow.run st args act).2.1
      = { initial_interval := 1, maximum_interval := 10,
          maximum_attempts := 3,
          non_retryable_error_types := ["ValueError", "KeyError"] }
  ∧ (Text2ImageWorkflow.run st args act).2.2 = act args :=
  ⟨rfl, rfl⟩

/-- C10: Text2ImageWorkflow.run writes no queryable state field: the
state component after a run is identical to the incoming state, and in a
fresh instance the fields keep their initial values, whatever the
activity returns. -/
theorem text2image_run_state_frame (args : GenArgs)
    (act : GenArgs → GenResult) :
    (∀ st : T2IState, (Text2ImageWorkflow.run st args act).1 = st)
  ∧ (Text2ImageWorkflow.run Text2ImageWorkflow.init args act).1.prompt = ""
  ∧ (Text2ImageWorkflow.run Text2ImageWorkflow.init args act).1.status
      = "pending"
  ∧ (Text2ImageWorkflow.run Text2ImageWorkflow.init args act).1.progress = 0
  ∧ (Text2ImageWorkflow.run Text2ImageWorkflow.init args act).1.image_url
      = none :=
  ⟨fun _ => rfl, rfl, rfl, rfl, rfl⟩

/-- C8: the cancelGeneration signal (modelled from the spec) sets status
to cancelled, leaves prompt, progress and image URL unchanged, and the
retry policy and result of any run invocation are unaffected by it. -/
theorem cancel_generation_frame (st : T2IState) :
    (cancel_generation st).status = "cancelled"
  ∧ (cancel_generation st).prompt = st.prompt
  ∧ (cancel_generation st).progress = st.progress
  ∧ (cancel_generation st).image_url = st.image_url
  ∧ ∀ (args : GenArgs) (act : GenArgs → GenResult),
      (Text2ImageWorkflow.run (cancel_generation st) args act).2
        = (Text2ImageWorkflow.run st args act).2 :=
  ⟨rfl, rfl, rfl, rfl, fun _ _ => rfl⟩

/-- C2: with pairwise-distinct containers (dict keys), and one gather
outcome per container, HealthCheckWorkflow.run returns one entry per
container keyed in input iteration order; every failed activity appears
as a status=error entry carrying the exception message, every other one
maps to its success value, and no failure aborts the collection (the run
is a total function of the outcomes). -/
theorem health_check_run_isolation (containers : List String)
    (results : List GatherItem) (hnd : containers.Nodup)
    (hlen : containers.length = results.length) :
    HealthCheckWorkflow.run containers results
      = (containers.zip results).map (fun pr => (pr.1, interpItem pr.2))
  ∧ (HealthCheckWorkflow.run containers results).length = containers.length
  ∧ (HealthCheckWorkflow.run containers results).map Prod.fst = containers
  ∧ (∀ c m, (c, GatherItem.exn m) ∈ containers.zip results →
       (c, [("status", JVal.s "error"), ("error", JVal.s m)])
         ∈ HealthCheckWorkflow.run containers results)
  ∧ (∀ c v, (c, GatherItem.ok v) ∈ containers.zip results →
       (c, v) ∈ HealthCheckWorkflow.run containers results) := by
  have hkeys : (containers.zip results).map Prod.fst = containers :=
    List.map_fst_zip containers results (le_of_eq hlen)
  have hmain : HealthCheckWorkflow.run containers results
      = (containers.zip results).map (fun pr => (pr.1, interpItem pr.2)) := by
    unfold HealthCheckWorkflow.run
    rw [healthFold_eq_append _ [] (by rw [hkeys]; exact hnd) (by simp)]
    simp
  refine ⟨hmain, ?_, ?_, ?_, ?_⟩
  · rw [hmain]
    simp [hlen]
  · rw [hmain, List.map_map]
    have hcomp : (Prod.fst ∘ fun pr : String × GatherItem =>
        (pr.1, interpItem pr.2)) = Prod.fst := rfl
    rw [hcomp, hkeys]
  · intro c m hm
    rw [hmain]
    exact List.mem_map.mpr ⟨(c, GatherItem.exn m), hm, rfl⟩
  · intro c v hv
    rw [hmain]
    exact List.mem_map.mpr ⟨(c, GatherItem.ok v), hv, rfl⟩

/-- Witness for C2 with two containers of which the second fails. -/
theorem health_check_run_isolation_witness :
    HealthCheckWorkflow.run ["a", "b"]
        [GatherItem.ok [("status", JVal.s "healthy")], GatherItem.exn "boom"]
      = ((["a", "b"].zip
          [GatherItem.ok [("status", JVal.s "healthy")],
           GatherItem.exn "boom"]).map
          (fun pr => (pr.1, interpItem pr.2))) :=
  (health_check_run_isolation ["a", "b"]
    [GatherItem.ok [("status", JVal.s "healthy")], GatherItem.exn "boom"]
    (by decide) (by decide)).1

/-- Counterexample for C2 as frozen: on the duplicated container list
with both activities failing, the result dict has one entry, not one per
list element -- the second write lands on the same key. -/
theorem health_check_run_duplicate_counterexample :
    HealthCheckWorkflow.run ["a", "a"]
        [GatherItem.exn "boom", GatherItem.exn "bam"]
      = [("a", [("status", JVal.s "error"), ("error", JVal.s "bam")])]
  ∧ (HealthCheckWorkflow.run ["a", "a"]
      [GatherItem.exn "boom", GatherItem.exn "bam"]).length ≠ 2 := by
  decide

/-- C3: the health summary has total equal to the number of entries and
buckets counting exactly the entries whose status value is healthy,
unhealthy and error; a stopped entry raises total without entering any
bucket, the bucket sum can therefore be strictly below total, and the
empty mapping gives the all-zero summary. -/
theorem health_summary_counts (hr : List (String × Obj)) :
    (get_health_summary hr).total = hr.length
  ∧ (get_health_summary hr).healthy = hr.countP (statusIs "healthy")
  ∧ (get_health_summary hr).unhealthy = hr.countP (statusIs "unhealthy")
  ∧ (get_health_summary hr).errors = hr.countP (statusIs "error")
  ∧ (∀ (c : String) (o : Obj) (rest : List (String × Obj)),
       Obj.get o "status" = some (JVal.s "stopped") →
       get_health_summary ((c, o) :: rest)
         = { total := (get_health_summary rest).total + 1
             healthy := (get_health_summary rest).healthy
             unhealthy := (get_health_summary rest).unhealthy
             errors := (get_health_summary rest).errors })
  ∧ (get_health_summary [("c", [("status", JVal.s "stopped")])]).healthy
      + (get_health_summary [("c", [("status", JVal.s "stopped")])]).unhealthy
      + (get_health_summary [("c", [("status", JVal.s "stopped")])]).errors
      < (get_health_summary [("c", [("status", JVal.s "stopped")])]).total
  ∧ get_health_summary [] = ⟨0, 0, 0, 0⟩ := by
  refine ⟨?_, ?_, ?_, ?_, ?_, by decide, by decide⟩
  · by_cases h : hr = [] <;> simp [get_health_summary, h]
  · by_cases h : hr = [] <;> simp [get_health_summary, h]
  · by_cases h : hr = [] <;> simp [get_health_summary, h]
  · by_cases h : hr = [] <;> simp [get_health_summary, h]
  · intro c o rest hst
    have hH : statusIs "healthy" (c, o) = false := by simp [statusIs, hst]
    have hU : statusIs "unhealthy" (c, o) = false := by simp [statusIs, hst]
    have hE : statusIs "error" (c, o) = false := by simp [statusIs, hst]
    by_cases hrest : rest = []
    · subst hrest
      simp [get_health_summary, List.countP_cons, hH, hU, hE]
    · simp [get_health_summary, hrest, List.countP_cons, hH, hU, hE]

/-- Witness for C3: a single stopped entry is counted in total only. -/
theorem health_summary_counts_witness :
    get_health_summary [("c1", [("status", JVal.s "stopped")])]
      = { total := (get_health_summary []).total + 1
          healthy := (get_health_summary []).healthy
          unhealthy := (get_health_summary []).unhealthy
          errors := (get_health_summary []).errors } :=
  (health_summary_counts []).2.2.2.2.1 "c1" [("status", JVal.s "stopped")] []
    (by decide)

theorem pollLoop_continue (r : ResolvedArgs) (fetch : FetchResponse)
    (d : StatusData) (rest : List PollResponse)
    (h : d.status = some "processing" ∨ d.status = some "running") :
    pollLoop r fetch (PollResponse.ok d :: rest) = pollLoop r fetch rest := by
  rcases h with h | h <;> simp [pollLoop, h]

theorem pollLoop_skip_running (r : ResolvedArgs) (fetch : FetchResponse)
    (pre rest : List PollResponse)
    (hpre : ∀ q ∈ pre, ∃ d, q = PollResponse.ok d ∧
        (d.status = some "processing" ∨ d.status = some "running")) :
    pollLoop r fetch (pre ++ rest) = pollLoop r fetch rest := by
  induction pre with
  | nil => rfl
  | cons q pre2 ih =>
    obtain ⟨d, hq, hd⟩ := hpre q (by simp)
    subst hq
    rw [List.cons_append, pollLoop_continue r fetch d _ hd]
    exact ih (fun q2 hq2 => hpre q2 (by simp [hq2]))

/-- C1 (amended): for every status value observed by one poll iteration:
completed triggers exactly one call to the result endpoint and the loop
returns the dict built from its payload (a non-200 fetch answer raises
after that single call); failed raises carrying the reported error
message; processing and running continue the loop without failing; and
every other status value, including pending and cancelled, raises the
unknown-status protocol error immediately; moreover a completed answer
reached after any stretch of processing or running answers still makes
exactly one result-endpoint call. -/
theorem poll_terminal_handling (r : ResolvedArgs) (fetch : FetchResponse)
    (d : StatusData) (rest : List PollResponse) :
    ((d.status = some "completed") →
       (∀ final_result, fetch = FetchResponse.ok final_result →
          pollLoop r fetch (PollResponse.ok d :: rest)
            = (PollOutcome.ok (buildResult r final_result), 1))
     ∧ (fetch = FetchResponse.httpError →
          pollLoop r fetch (PollResponse.ok d :: rest)
            = (PollOutcome.resultRequestFailed, 1)))
  ∧ (d.status = some "failed" →
       pollLoop r fetch (PollResponse.ok d :: rest)
         = (PollOutcome.generationFailed
             ("Generation failed: " ++ (d.error.getD "Unknown error")), 0))
  ∧ ((d.status = some "processing" ∨ d.status = some "running") →
       pollLoop r fetch (PollResponse.ok d :: rest) = pollLoop r fetch rest)
  ∧ (d.status ≠ some "completed" → d.status ≠ some "failed" →
     d.status ≠ some "processing" → d.status ≠ some "running" →
       pollLoop r fetch (PollResponse.ok d :: rest)
         = (PollOutcome.unknownStatus d.status, 0))
  ∧ (∀ pre : List PollResponse,
       (∀ q ∈ pre, ∃ d2, q = PollResponse.ok d2 ∧
           (d2.status = some "processing" ∨ d2.status = some "running")) →
       d.status = some "completed" →
       ∀ final_result, fetch = FetchResponse.ok final_result →
       pollLoop r fetch (pre ++ [PollResponse.ok d])
         = (PollOutcome.ok (buildResult r final_result), 1)) := by
  refine ⟨fun hc => ⟨fun fr hf => ?_, fun hf => ?_⟩, fun hf => ?_,
      pollLoop_continue r fetch d rest, fun h1 h2 h3 h4 => ?_, ?_⟩
  · subst hf; simp [pollLoop, hc]
  · subst hf; simp [pollLoop, hc]
  · simp [pollLoop, hf]
  · simp [pollLoop, h1, h2, h3, h4]
  · intro pre hpre hc fr hf
    subst hf
    rw [pollLoop_skip_running r _ pre [PollResponse.ok d] hpre]
    simp [pollLoop, hc]

/-- Witness for C1 at a completed and a failed poll answer. -/
theorem poll_terminal_handling_witness :
    pollLoop r0 (FetchResponse.ok []) [PollResponse.ok ⟨some "completed", none⟩]
      = (PollOutcome.ok (buildResult r0 []), 1)
  ∧ pollLoop r0 FetchResponse.httpError
      [PollResponse.ok ⟨some "failed", some "oops"⟩]
      = (PollOutcome.generationFailed
          ("Generation failed: "
            ++ ((some "oops" : Option String).getD "Unknown error")), 0) :=
  ⟨((poll_terminal_handling r0 (FetchResponse.ok [])
      ⟨some "completed", none⟩ []).1 rfl).1 [] rfl,
   (poll_terminal_handling r0 FetchResponse.httpError
      ⟨some "failed", some "oops"⟩ []).2.1 rfl⟩

/-- Counterexample for C1 as frozen: a pending poll answer does not keep
the loop polling -- the code raises the unknown-status error on it --
and a cancelled answer also raises the unknown-status error rather than
a distinct remote-task-cancelled failure. -/
theorem poll_pending_cancelled_counterexample :
    pollLoop r0 (FetchResponse.ok []) [PollResponse.ok ⟨some "pending", none⟩]
      = (PollOutcome.unknownStatus (some "pending"), 0)
  ∧ pollLoop r0 (FetchResponse.ok []) [PollResponse.ok ⟨some "pending", none⟩]
      ≠ pollLoop r0 (FetchResponse.ok []) []
  ∧ pollLoop r0 (FetchResponse.ok [])
      [PollResponse.ok ⟨some "cancelled", none⟩]
      = (PollOutcome.unknownStatus (some "cancelled"), 0) := by
  decide

/-- C9: check_container_health never raises: every environment outcome
yields a dict carrying a status key and the container key holding the
input name, and every failure path (nonzero docker-inspect return code,
subprocess timeout, any raised exception including a stdout parse
failure) yields exactly the status=error dict carrying the message and
the container name. -/
theorem check_container_health_total (container_name : String) :
    (∀ outcome, ∃ v,
       Obj.get (check_container_health container_name outcome) "status"
         = some v)
  ∧ (∀ outcome,
       Obj.get (check_container_health container_name outcome) "container"
         = some (JVal.s container_name))
  ∧ (∀ (rc : Int) (parsed : Except String ContainerState), rc ≠ 0 →
       check_container_health container_name (.completed rc parsed)
         = errorResult ("Container " ++ container_name ++ " not found")
             container_name)
  ∧ check_container_health container_name .timedOut
      = errorResult ("Timeout checking container " ++ container_name)
          container_name
  ∧ (∀ m, check_container_health container_name (.raised m)
       = errorResult m container_name)
  ∧ (∀ m, check_container_health container_name (.completed 0 (.error m))
       = errorResult m container_name) := by
  refine ⟨?_, ?_, fun rc parsed h => ?_, rfl, fun m => rfl, fun m => rfl⟩
  · intro outcome
    cases outcome with
    | timedOut => exact ⟨JVal.s "error", rfl⟩
    | raised m => exact ⟨JVal.s "error", rfl⟩
    | completed rc parsed =>
      by_cases h : rc = 0
      · subst h
        cases parsed with
        | error m => exact ⟨JVal.s "error", rfl⟩
        | ok state => exact ⟨_, rfl⟩
      · refine ⟨JVal.s "error", ?_⟩
        simp [check_container_health, h, errorResult, Obj.get]
  · intro outcome
    cases outcome with
    | timedOut => rfl
    | raised m => rfl
    | completed rc parsed =>
      by_cases h : rc = 0
      · subst h
        cases parsed with
        | error m => rfl
        | ok state => rfl
      · simp [check_container_health, h, errorResult, Obj.get]
  · simp [check_container_health, h]

/-- Witness for C9: a nonzero docker-inspect return code yields the
not-found error dict. -/
theorem check_container_health_total_witness :
    check_container_health "web" (InspectOutcome.completed 1 (Except.error "x"))
      = errorResult ("Container " ++ "web" ++ " not found") "web" :=
  (check_container_health_total "web").2.2.1 1 (Except.error "x") (by decide)

theorem retryRun_le (p : RetryPolicy) (fs : List AttemptFailure) :
    ∀ n, n ≤ retryRun p n fs := by
  induction fs with
  | nil => intro n; simp [retryRun]
  | cons f rest ih =>
    intro n
    by_cases h : p.maximum_attempts ≤ n ∨ f.kind ∈ p.non_retryable_error_types
    · simp [retryRun, h]
    · have h1 := ih (n + 1)
      simp only [retryRun, h, if_false]
      omega

theorem retryRun_stop_reason (p : RetryPolicy) (fs : List AttemptFailure) :
    ∀ n, fs.length ≤ retryRun p n fs - n
      ∨ p.maximum_attempts ≤ retryRun p n fs
      ∨ ∃ f, fs.get? (retryRun p n fs - n) = some f
           ∧ f.kind ∈ p.non_retryable_error_types := by
  induction fs with
  | nil => intro n; left; simp [retryRun]
  | cons f rest ih =>
    intro n
    by_cases h : p.maximum_attempts ≤ n ∨ f.kind ∈ p.non_retryable_error_types
    · rcases h with h | h
      · right; left
        have hm : retryRun p n (f :: rest) = n := by
          simp [retryRun, h]
        rw [hm]; exact h
      · right; right
        have hm : retryRun p n (f :: rest) = n := by
          simp [retryRun, h]
        exact ⟨f, by simp [hm], h⟩
    · have hm : retryRun p n (f :: rest) = retryRun p (n + 1) rest := by
        simp [retryRun, h]
      have hle : n + 1 ≤ retryRun p (n + 1) rest := retryRun_le p rest (n + 1)
      rcases ih (n + 1) with h1 | h1 | ⟨f2, h2, h3⟩
      · left
        rw [hm]
        simp only [List.length_cons]
        omega
      · right; left
        rw [hm]; exact h1
      · right; right
        refine ⟨f2, ?_, h3⟩
        rw [hm]
        have hs : retryRun p (n + 1) rest - n
            = (retryRun p (n + 1) rest - (n + 1)) + 1 := by omega
        rw [hs]
        simpa using h2

theorem retryRun_no_early_stop (p : RetryPolicy) (fs : List AttemptFailure) :
    ∀ n i, n ≤ i → i < retryRun p n fs →
      i < p.maximum_attempts
      ∧ ∃ f, fs.get? (i - n) = some f
           ∧ f.kind ∉ p.non_retryable_error_types := by
  induction fs with
  | nil =>
    intro n i hni hi
    simp only [retryRun] at hi
    exact absurd (Nat.lt_of_le_of_lt hni hi) (Nat.lt_irrefl n)
  | cons f rest ih =>
    intro n i hni hi
    by_cases h : p.maximum_attempts ≤ n ∨ f.kind ∈ p.non_retryable_error_types
    · have hm : retryRun p n (f :: rest) = n := by simp [retryRun, h]
      rw [hm] at hi
      exact absurd (Nat.lt_of_le_of_lt hni hi) (Nat.lt_irrefl n)
    · have hm : retryRun p n (f :: rest) = retryRun p (n + 1) rest := by
        simp [retryRun, h]
      rw [hm] at hi
      push_neg at h
      rcases Nat.eq_or_lt_of_le hni with heq | hlt
      · subst heq
        refine ⟨h.1, f, ?_, h.2⟩
        simp
      · have hrec := ih (n + 1) i hlt hi
        refine ⟨hrec.1, ?_⟩
        obtain ⟨f2, hf2, hf3⟩ := hrec.2
        refine ⟨f2, ?_, hf3⟩
        have hs : i - n = (i - (n + 1)) + 1 := by omega
        rw [hs]
        simpa using hf2

/-- C5 (retry semantics modelled from the spec, the loop living in the
temporalio library): the delay before attempt n (n at least 2) is at
least min(initialInterval x 2^(n-2), maximumInterval); a first failure
of non-retryable kind yields exactly one attempt regardless of
maximumAttempts; every non-final attempt number stays below
maximumAttempts and fails with a retryable kind (so retrying never stops
before its stop condition); and the final attempt is final because the
failures are exhausted, the attempt count reached maximumAttempts, or
its failure kind is non-retryable. -/
theorem retry_policy_behaviour (p : RetryPolicy)
    (failures : List AttemptFailure) :
    (∀ n, 2 ≤ n →
       min (p.initial_interval * 2 ^ (n - 2)) p.maximum_interval
         ≤ backoffDelay p n)
  ∧ (∀ f rest, f.kind ∈ p.non_retryable_error_types →
       attemptsUsed p (f :: rest) = 1)
  ∧ (∀ i, 1 ≤ i → i < attemptsUsed p failures →
       i < p.maximum_attempts
       ∧ ∃ f, failures.get? (i - 1) = some f
            ∧ f.kind ∉ p.non_retryable_error_types)
  ∧ (failures.length < attemptsUsed p failures
     ∨ p.maximum_attempts ≤ attemptsUsed p failures
     ∨ ∃ f, failures.get? (attemptsUsed p failures - 1) = some f
          ∧ f.kind ∈ p.non_retryable_error_types) := by
  refine ⟨fun n _ => le_refl _, fun f rest h => ?_, fun i h1 h2 => ?_, ?_⟩
  · simp [attemptsUsed, retryRun, h]
  · exact retryRun_no_early_stop p failures 1 i h1 h2
  · simp only [attemptsUsed]
    have h1 := retryRun_le p failures 1
    rcases retryRun_stop_reason p failures 1 with h | h | h
    · left; omega
    · right; left; exact h
    · right; right; exact h

/-- Witness for C5 on the retry policy of Text2ImageWorkflow: a first
ValueError ends retrying after exactly one attempt, and with two
retryable failures attempt 2 is a non-final attempt below the attempt
bound that failed retryably. -/
theorem retry_policy_behaviour_witness :
    attemptsUsed text2image_retry_policy
        [⟨"ValueError", "bad input"⟩, ⟨"RuntimeError", "x"⟩] = 1
  ∧ (2 < text2image_retry_policy.maximum_attempts
     ∧ ∃ f, ([⟨"RuntimeError", "x"⟩, ⟨"RuntimeError", "y"⟩] :
          List AttemptFailure).get? (2 - 1) = some f
          ∧ f.kind ∉ text2image_retry_policy.non_retryable_error_types) :=
  ⟨(retry_policy_behaviour text2image_retry_policy []).2.1
      ⟨"ValueError", "bad input"⟩ [⟨"RuntimeError", "x"⟩] (by decide),
   (retry_policy_behaviour text2image_retry_policy
      [⟨"RuntimeError", "x"⟩, ⟨"RuntimeError", "y"⟩]).2.2.1 2 (by decide)
      (by decide)⟩
